import Mathlib

/-!
Verification of the adaptive inference-configuration and fallback engine of
src/scripts/generate_image_diffusers.py (the SAM repository), via a shallow
embedding: pure helper functions of the script become Lean functions, the
side-effecting parts (filesystem, torch, pipeline placement) are modelled by
explicit environment records and result values, and exceptions become Except.
-/

set_option maxRecDepth 10000
set_option maxHeartbeats 1000000

namespace SamImageGen

/-! ## Python-string machinery

The script classifies errors and weight keys by substring tests (Python
in-operator) and rewrites keys with str.replace (replace every occurrence,
scanning left to right, continuing after each replaced occurrence). Both are
modelled on the character list of the string. -/

/-- Whether the first list is a prefix of the second (Boolean). -/
def isPrefixB : List Char → List Char → Bool
  | [], _ => true
  | _ :: _, [] => false
  | a :: as, b :: bs => a == b && isPrefixB as bs

/-- Whether pat occurs as a contiguous substring of the list. -/
def hasSubAux (pat : List Char) : List Char → Bool
  | [] => pat.isEmpty
  | c :: t => isPrefixB pat (c :: t) || hasSubAux pat t

/-- Python membership test on strings: containsSub hay pat is pat in hay. -/
def containsSub (hay pat : String) : Bool :=
  hasSubAux pat.data hay.data

/-- Python str.replace on character lists: replace every occurrence of pat
by rep, scanning left to right and continuing after each replaced occurrence
(pat is assumed nonempty, as at every use in the script). The fuel argument
only bounds the recursion structurally; every step consumes at least one
character, so fuel = length of the list never runs out. -/
def replaceAllAux (pat rep : List Char) : Nat → List Char → List Char
  | _, [] => []
  | 0, s => s
  | fuel + 1, c :: t =>
    if isPrefixB pat (c :: t) && !pat.isEmpty then
      rep ++ replaceAllAux pat rep fuel (List.drop (pat.length - 1) t)
    else
      c :: replaceAllAux pat rep fuel t

/-- Python str.replace on strings. -/
def strReplace (s pat rep : String) : String :=
  ⟨replaceAllAux pat.data rep.data s.data.length s.data⟩

/-- Python str.lower (restricted to the ASCII names the script compares). -/
def strLower (s : String) : String :=
  ⟨s.data.map Char.toLower⟩

/-- The part of a path after its last slash (Python Path.name; the whole
string when there is no slash). -/
def pathName (p : String) : String :=
  ⟨(p.data.reverse.span (fun c => c != '/')).1.reverse⟩

/-- The part of a path before its last slash (Python Path.parent as a string;
"." when there is no slash). -/
def pathParent (p : String) : String :=
  let rev := p.data.reverse
  let rest := (rev.span (fun c => c != '/')).2
  match rest with
  | [] => "."
  | _ :: t => if t.isEmpty then "/" else ⟨t.reverse⟩

/-- Python Path division rendered as a string. -/
def pathJoin (d f : String) : String :=
  if d = "." then f else if d = "/" then "/" ++ f else d ++ "/" ++ f

/-- Python Path.stem of a file name: the name up to its last dot. -/
def stemOf (name : String) : String :=
  let rev := name.data.reverse
  let (afterDot, rest) := rev.span (fun c => c != '.')
  match rest with
  | [] => ⟨afterDot.reverse⟩
  | _ :: t => ⟨t.reverse⟩

/-- Python Path.suffix of a file name: the last dot and what follows it, or
the empty string when there is no dot. -/
def suffixOf (name : String) : String :=
  let rev := name.data.reverse
  let (afterDot, rest) := rev.span (fun c => c != '.')
  match rest with
  | [] => ""
  | _ :: _ => ⟨'.' :: afterDot.reverse⟩

/-! ## Weight Adapter: remap_fp8_weights (source lines 144-207) and the
rename-and-symlink block of generate_image (source lines 549-569)

A weight tensor is modelled by the list of its rows along the leading
dimension (the only dimension the remap touches); a weight table by an
ordered association list, as a safetensors state dict is ordered. -/

/-- A loaded weight table: ordered key-to-tensor pairs; a tensor is its list
of leading-dimension rows. -/
abbrev WeightTable (α : Type) : Type := List (String × List α)

/-- needs_remap of remap_fp8_weights (line 158): some key holds the fused
query-key-value pattern. -/
def needsRemapB {α : Type} (tbl : WeightTable α) : Bool :=
  List.any tbl (fun kv => containsSub kv.1 ".attention.qkv.weight")

/-- One iteration of the remap loop (lines 168-195): a fused query-key-value
key is split into three chunks of size shape0 / 3 along the leading dimension
(torch.split with dim 0) and re-keyed; the auxiliary attention keys are
renamed; every other key passes through unchanged. -/
def remapEntry {α : Type} (key : String) (v : List α) : List (String × List α) :=
  if containsSub key ".attention.qkv.weight" then
    let hiddenDim := v.length / 3
    let q := v.take hiddenDim
    let k := (v.drop hiddenDim).take hiddenDim
    let w := (v.drop (hiddenDim + hiddenDim)).take hiddenDim
    let baseKey := strReplace key ".qkv.weight" ""
    [(baseKey ++ ".to_q.weight", q),
     (baseKey ++ ".to_k.weight", k),
     (baseKey ++ ".to_v.weight", w)]
  else if containsSub key ".attention.out.weight" then
    [(strReplace key ".out.weight" ".to_out.0.weight", v)]
  else if containsSub key ".attention.q_norm.weight" then
    [(strReplace key ".q_norm.weight" ".norm_q.weight", v)]
  else if containsSub key ".attention.k_norm.weight" then
    [(strReplace key ".k_norm.weight" ".norm_k.weight", v)]
  else
    [(key, v)]

/-- The remapped weight table (the whole loop of lines 167-195). -/
def remapTable {α : Type} (tbl : WeightTable α) : WeightTable α :=
  List.flatMap tbl (fun kv => remapEntry kv.1 kv.2)

/-- The keys remapEntry produces for a key (they do not depend on the
tensor). -/
def remapKeysOf (key : String) : List String :=
  List.map Prod.fst (remapEntry key ([] : List Unit))

/-- The sibling cache path (line 198): parent / (stem ++ _remapped ++
.safetensors). -/
def remappedPathOf (p : String) : String :=
  pathJoin (pathParent p) (stemOf (pathName p) ++ "_remapped.safetensors")

/-- What one call of remap_fp8_weights does to the world: the path it
returns, and the table it saves to the cache file (none when nothing is
written, by the no-remap early return of line 162 or by the existence check
of line 201). -/
structure RemapOutcome (α : Type) where
  usePath : String
  cacheWritten : Option (WeightTable α)

/-- remap_fp8_weights (lines 144-207), with the filesystem state abstracted
into the cacheExists flag. -/
def remap_fp8_weights {α : Type} (p : String) (tbl : WeightTable α)
    (cacheExists : Bool) : RemapOutcome α :=
  if needsRemapB tbl then
    { usePath := remappedPathOf p,
      cacheWritten := if cacheExists then none else some (remapTable tbl) }
  else
    { usePath := p, cacheWritten := none }

/-- The filesystem actions of the post-remap block of generate_image
(lines 558-569). -/
structure LinkEffects where
  renamedBackup : Bool
  createdSymlink : Bool
deriving DecidableEq, Repr

/-- The rename-and-symlink block (lines 558-569): only entered when the
remap returned a path different from the original; the backup rename is
skipped when the backup already exists; the symlink is always re-created in
that case. -/
def apply_remap_links (origPath usePath : String) (backupExists : Bool) :
    LinkEffects :=
  if usePath ≠ origPath then
    { renamedBackup := !backupExists, createdSymlink := true }
  else
    { renamedBackup := false, createdSymlink := false }

/-! ## Memory Budget Estimator: should_use_low_memory (source lines 371-415)

psutil.virtual_memory().total and the file-size walk are the two effectful
readings; each is modelled as an Except value whose error constructor stands
for a raised exception. Sizes are exact rationals: the Python arithmetic is
int times float 0.75 and an int-float comparison, exact for every realistic
memory size (0.75 times any int below 2 to the 51st is a representable
float). -/

/-- The threshold comparison of lines 399-402: model_size > system_ram *
0.75. -/
def lowMemDecision (systemRam modelSize : ℚ) : Bool :=
  decide (modelSize > systemRam * 0.75)

/-- should_use_low_memory (lines 371-415): both readings succeed and the
threshold decides, or any exception is caught (lines 412-415), a warning is
printed and False is returned. Returns the decision and the warning lines
printed on the exception path. -/
def should_use_low_memory (sysRam : Except String ℚ)
    (sizes : Except String (List ℚ)) : Bool × List String :=
  match sysRam with
  | .error e =>
      (false, ["Warning: Failed to detect memory requirements: " ++ e,
               "Defaulting to low_cpu_mem_usage=False for compatibility"])
  | .ok ram =>
      match sizes with
      | .error e =>
          (false, ["Warning: Failed to detect memory requirements: " ++ e,
                   "Defaulting to low_cpu_mem_usage=False for compatibility"])
      | .ok szs => (lowMemDecision ram (List.sum szs), [])

/-! ## Device and precision policy (source lines 512-534 and 582-616) -/

/-- The torch dtypes the script selects between. -/
inductive Dtype where
  | float32
  | float16
  | bfloat16
deriving DecidableEq, Repr

/-- Device resolution (lines 512-534): auto probes mps, then cuda, then cpu;
an explicit mps request falls back to cpu when mps is unavailable; an
explicit cpu request and any unknown selector give cpu. -/
def resolve_device (device : String) (mpsAvail cudaAvail : Bool) : String :=
  if device = "auto" then
    if mpsAvail then "mps" else if cudaAvail then "cuda" else "cpu"
  else if device = "mps" then
    if mpsAvail then "mps" else "cpu"
  else if device = "cpu" then "cpu"
  else "cpu"

/-- is_zimage (line 582): the flow-matching model families, recognised by
keyword on the lowered model-type name. -/
def is_zimage_type (modelType : String) : Bool :=
  containsSub (strLower modelType) "zimage" ||
  containsSub (strLower modelType) "qwen" ||
  containsSub (strLower modelType) "flow"

/-- Dtype selection (lines 584-614). On mps for a flow-matching family the
bf16 support is probed by allocating a tensor (lines 589-596): bf16ProbeOk
says whether that allocation succeeded; mpsAvail models the
torch.backends.mps.is_available() guard of line 587. On cuda the reported
capability flag cudaBf16 decides. On cpu the low-memory mode decides. -/
def select_dtype (device : String)
    (isZimage mpsAvail bf16ProbeOk cudaBf16 useLowMemory : Bool) : Dtype :=
  if device = "mps" then
    if isZimage then
      if mpsAvail then
        if bf16ProbeOk then .bfloat16 else .float32
      else .float32
    else .float32
  else if device = "cuda" then
    if cudaBf16 then .bfloat16 else .float16
  else
    if useLowMemory then .float16 else .float32

/-! ## Scheduler registry and Scheduler Compatibility Resolver
(SCHEDULERS table, source lines 215-272; resolution logic, lines 683-727) -/

/-- One entry of the SCHEDULERS table: the diffusers class it instantiates
and the configuration overrides it passes. -/
structure SchedulerInfo where
  className : String
  useKarrasSigmas : Option Bool := none
  algorithmType : Option String := none
  solverOrder : Option Nat := none
  lowerOrderFinal : Option Bool := none
  timestepSpacing : Option String := none
deriving DecidableEq, Repr

/-- The SCHEDULERS mapping (lines 215-272). -/
def SCHEDULERS : List (String × SchedulerInfo) :=
  [("dpm++",
    { className := "DPMSolverMultistepScheduler",
      useKarrasSigmas := some false, algorithmType := some "dpmsolver++",
      solverOrder := some 1, lowerOrderFinal := some true }),
   ("dpm++_karras",
    { className := "DPMSolverMultistepScheduler",
      useKarrasSigmas := some true, algorithmType := some "dpmsolver++",
      solverOrder := some 1, lowerOrderFinal := some true }),
   ("dpm++_sde",
    { className := "DPMSolverMultistepScheduler",
      useKarrasSigmas := some false, algorithmType := some "sde-dpmsolver++",
      solverOrder := some 1, lowerOrderFinal := some true }),
   ("dpm++_sde_karras",
    { className := "DPMSolverMultistepScheduler",
      useKarrasSigmas := some true, algorithmType := some "sde-dpmsolver++",
      solverOrder := some 1, lowerOrderFinal := some true }),
   ("euler", { className := "EulerDiscreteScheduler" }),
   ("euler_a", { className := "EulerAncestralDiscreteScheduler" }),
   ("euler_ancestral", { className := "EulerAncestralDiscreteScheduler" }),
   ("ddim", { className := "DDIMScheduler" }),
   ("ddim_uniform",
    { className := "DDIMScheduler", timestepSpacing := some "linspace" }),
   ("pndm", { className := "PNDMScheduler" }),
   ("lms", { className := "LMSDiscreteScheduler" }),
   ("flow_match_euler", { className := "FlowMatchEulerDiscreteScheduler" }),
   ("flow_match_heun", { className := "FlowMatchHeunDiscreteScheduler" })]

/-- The recognised scheduler names, in table order. -/
def schedulerNames : List String :=
  List.map Prod.fst SCHEDULERS

/-- The stochastic-differential schedulers: those whose configured algorithm
type holds the sde tag. -/
def sdeSchedulerNames : List String :=
  List.map Prod.fst (List.filter
    (fun e => match e.2.algorithmType with
              | some a => containsSub a "sde"
              | none => false)
    SCHEDULERS)

/-- The flow-matching-specific scheduler names (hard-coded at lines 704 and
712). -/
def flowMatchSchedulerNames : List String :=
  ["flow_match_euler", "flow_match_heun"]

/-- The model-type names with strict scheduler requirements (line 711). -/
def strictSchedulerModelTypes : List String :=
  ["zimage", "flux", "sd3"]

/-- The message of the ValueError raised at line 699. -/
def mpsSdeError (scheduler : String) : String :=
  "Scheduler '" ++ scheduler ++
  "' is not compatible with MPS device. Use 'euler' or 'dpm++' instead."

/-- The warnings printed when a flow-matching pipeline overrides the
requested scheduler (lines 705-707). -/
def fmOverrideLogs (scheduler origClass : String) : List String :=
  ["Warning: Model uses flow-matching (" ++ origClass ++ ").",
   "Requested scheduler '" ++ scheduler ++ "' may not work correctly.",
   "Using original scheduler to ensure compatibility."]

/-- How the scheduler was resolved: the pipeline keeps its original
scheduler object, or a fresh one of the named kind is instantiated and
bound. -/
inductive SchedResolution where
  | keepOriginal
  | setNew (name : String)
deriving DecidableEq, Repr

/-- is_flow_matching (line 684): detected from the class name of the
pipeline's original scheduler. -/
def isFlowMatchingOf (origClass : String) : Bool :=
  containsSub origClass "FlowMatch" || origClass = "FlowMatchEulerDiscreteScheduler"

/-- The scheduler resolution of generate_image (lines 687-727) together
with the membership check of get_scheduler (lines 420-421): the hard mps
stochastic-differential rejection comes first; then a flow-matching pipeline
or a strict model type retains its original scheduler (with override
warnings); otherwise the requested scheduler is instantiated, or an unknown
name raises. -/
def resolve_scheduler (device scheduler : String) (isFlowMatching : Bool)
    (modelType origClass : String) :
    Except String (SchedResolution × List String) :=
  if device = "mps" ∧ (scheduler = "dpm++_sde" ∨ scheduler = "dpm++_sde_karras") then
    .error (mpsSdeError scheduler)
  else if isFlowMatching = true ∧ scheduler ∉ flowMatchSchedulerNames ∨
          strLower modelType ∈ strictSchedulerModelTypes ∧
            scheduler ∉ flowMatchSchedulerNames then
    .ok (.keepOriginal,
      (if isFlowMatching = true ∧ scheduler ∉ flowMatchSchedulerNames then
        fmOverrideLogs scheduler origClass
      else []) ++
      (if strLower modelType ∈ strictSchedulerModelTypes ∧
          scheduler ∉ flowMatchSchedulerNames then
        ["Preserving original scheduler for " ++ modelType ++ " model"]
      else []))
  else if scheduler ∈ schedulerNames then
    .ok (.setNew scheduler, ["Setting scheduler: " ++ scheduler])
  else
    .error ("Unknown scheduler: " ++ scheduler)

/-! ## Execution Fallback Controller (source lines 735-774) -/

/-- The execution and offload modes of the memory plan. -/
inductive MemMode where
  | standard
  | attentionSlicing
  | sequentialOffload
  | modelOffload
deriving DecidableEq, Repr

/-- Classification of an error raised by direct placement (lines 756-774):
the lowered message holds out-of-memory-or-mps to sequential offload with the
generator device re-targeted to cpu; meta-tensor-or-to_empty to whole-model
offload with the generator device re-targeted to cpu; anything else is
re-raised unchanged. -/
def classify_place_error (errMsg : String) : Except String (MemMode × String) :=
  if containsSub (strLower errMsg) "out of memory" = true ∨
     containsSub (strLower errMsg) "mps" = true then
    .ok (.sequentialOffload, "cpu")
  else if containsSub (strLower errMsg) "meta tensor" = true ∨
          containsSub (strLower errMsg) "to_empty" = true then
    .ok (.modelOffload, "cpu")
  else
    .error errMsg

/-- The placement ladder (lines 735-774): predicted low memory on mps goes
proactively to sequential offload without attempting direct placement (the
device binding stays mps there); predicted low memory on cpu enables
attention slicing and stays on cpu; otherwise direct placement is attempted
and a raised error (placeErr) is classified. -/
def attempt_placement (device : String) (useLowMemory : Bool)
    (placeErr : Option String) : Except String (MemMode × String) :=
  if useLowMemory = true ∧ device = "mps" then
    .ok (.sequentialOffload, device)
  else if useLowMemory = true ∧ device = "cpu" then
    .ok (.attentionSlicing, "cpu")
  else
    match placeErr with
    | none => .ok (.standard, device)
    | some m => classify_place_error m

/-- The memory plan mode the low-memory prediction selects on each backend
(the branch structure of lines 737-753 before any placement error). -/
def memory_mode (device : String) (useLowMemory : Bool) : MemMode :=
  if useLowMemory = true ∧ device = "mps" then .sequentialOffload
  else if useLowMemory = true ∧ device = "cpu" then .attentionSlicing
  else .standard

/-! ## LoRA Composer (source lines 787-828) -/

/-- Weight-list resolution (lines 791-795): no list means every adapter gets
weight 1.0; a short list is padded with 1.0 to the number of paths; a list at
least as long is kept as is. -/
def pad_lora_weights (nPaths : Nat) (weights : Option (List ℚ)) : List ℚ :=
  match weights with
  | none => List.replicate nPaths 1
  | some ws =>
      if ws.length < nPaths then ws ++ List.replicate (nPaths - ws.length) 1
      else ws

/-- The filesystem and library behaviour the loop observes per adapter path:
which paths do not exist (skipped with a warning, line 800) and which fail to
load (caught with a warning, line 812). -/
structure LoraEnv where
  missing : List String
  failing : List String

/-- The adapter-loading loop (lines 797-813): each existing, loadable path i
is loaded under the synthetic name lora_i with the weight at index i of the
resolved weight list (1.0 past its end, line 804). -/
def load_loras_aux (lenv : LoraEnv) (ws : List ℚ) :
    Nat → List String → List (String × ℚ)
  | _, [] => []
  | i, p :: rest =>
      if p ∈ lenv.missing then load_loras_aux lenv ws (i + 1) rest
      else if p ∈ lenv.failing then load_loras_aux lenv ws (i + 1) rest
      else ("lora_" ++ toString i, ws.getD i 1) :: load_loras_aux lenv ws (i + 1) rest

/-- The adapters that loaded successfully, in order, with their weights. -/
def load_loras (paths : List String) (weights : Option (List ℚ))
    (lenv : LoraEnv) : List (String × ℚ) :=
  load_loras_aux lenv (pad_lora_weights paths.length weights) 0 paths

/-- The one weight-setting call the composer makes (lines 816-826): more
than one loaded adapter means a single simultaneous set_adapters call over
all of them; exactly one means a call only when its weight differs from 1.0;
zero means no call. -/
def set_adapters_action (loaded : List (String × ℚ)) :
    Option (List String × List ℚ) :=
  if loaded.length > 1 then
    some (List.map Prod.fst loaded, List.map Prod.snd loaded)
  else if loaded.length = 1 then
    match loaded with
    | [(n, w)] => if w ≠ 1 then some ([n], [w]) else none
    | _ => none
  else none

/-! ## Output naming and the Generation Driver (source lines 450-997) -/

/-- The saved image paths (lines 962-974): the output path itself for one
image, else parent / stem_i+1 suffix for each generated image. -/
def saved_paths (outputPath : String) (numImages : Nat) : List String :=
  if numImages = 1 then [outputPath]
  else
    List.map
      (fun i => pathJoin (pathParent outputPath)
        (stemOf (pathName outputPath) ++ "_" ++ toString (i + 1) ++
          suffixOf (pathName outputPath)))
      (List.range numImages)

/-- The request parameters of generate_image (lines 450-467), with the
defaults of the argument parser. -/
structure Request where
  modelPath : String
  prompt : String
  outputPath : String
  negativePrompt : String := ""
  scheduler : String := "euler"
  steps : Nat := 25
  width : Nat := 512
  height : Nat := 512
  seed : Option Int := none
  numImages : Nat := 1
  inputImage : Option String := none
  device : String := "auto"
  loraPaths : Option (List String) := none
  loraWeights : Option (List ℚ) := none

/-- Everything the run observes from outside: filesystem facts, backend
availability, the capability probes, the two memory readings, the loaded
pipeline's properties, whether direct placement raises (and with what
message), the LoRA filesystem, and whether the sampling call succeeds. -/
structure Env where
  modelExists : Bool
  inputImageExists : Bool := true
  mpsAvail : Bool
  cudaAvail : Bool := false
  bf16ProbeOk : Bool := false
  cudaBf16 : Bool := false
  sysRam : Except String ℚ
  modelFileSizes : Except String (List ℚ)
  loadOk : Bool := true
  origSchedulerClass : String
  modelType : String
  placeErr : Option String := none
  loraEnv : LoraEnv := { missing := [], failing := [] }
  inferenceOk : Bool := true

/-- The observable outcome of a successful run: the success flag and image
list of the result JSON (lines 977-997), and the resolved execution state the
claims speak about. -/
structure GenOutput where
  success : Bool
  images : List String
  mode : MemMode
  generatorDevice : String
  dtype : Dtype
  schedRes : SchedResolution
  loraAction : Option (List String × List ℚ)
  useLowMemory : Bool

/-- The control flow of generate_image (lines 450-997) over the modelled
steps: existence checks, device resolution, the memory estimate, dtype
selection, pipeline load, scheduler resolution, placement with the fallback
ladder, LoRA composition, the sampling call, and the result JSON. An error
value is an exception propagating out of generate_image. The generator
(random-state) object is created after placement with the then-current
device variable (line 837). -/
def run_generate (req : Request) (env : Env) : Except String GenOutput :=
  if env.modelExists = false then
    .error ("Model not found: " ++ req.modelPath)
  else if req.inputImage.isSome = true ∧ env.inputImageExists = false then
    .error "Input image not found"
  else
    let device0 := resolve_device req.device env.mpsAvail env.cudaAvail
    let lowMem := (should_use_low_memory env.sysRam env.modelFileSizes).1
    let dtype := select_dtype device0 (is_zimage_type env.modelType)
      env.mpsAvail env.bf16ProbeOk env.cudaBf16 lowMem
    if env.loadOk = false then .error "Error loading model"
    else
      match resolve_scheduler device0 req.scheduler
          (isFlowMatchingOf env.origSchedulerClass) env.modelType
          env.origSchedulerClass with
      | .error e => .error e
      | .ok (schedRes, _logs) =>
          match attempt_placement device0 lowMem env.placeErr with
          | .error e => .error e
          | .ok (mode, device1) =>
              let loaded :=
                match req.loraPaths with
                | none => []
                | some ps => load_loras ps req.loraWeights env.loraEnv
              if env.inferenceOk = false then .error "Inference failed"
              else
                .ok { success := true,
                      images := saved_paths req.outputPath req.numImages,
                      mode := mode,
                      generatorDevice := device1,
                      dtype := dtype,
                      schedRes := schedRes,
                      loraAction := set_adapters_action loaded,
                      useLowMemory := lowMem }

/-- The exit code of main (lines 1058-1083): 0 when generate_image returns,
1 when any exception reaches the top level. -/
def exit_code (r : Except String GenOutput) : Nat :=
  match r with
  | .ok _ => 0
  | .error _ => 1

/-! ## Concrete runs used by the examples below -/

/-- A request for a stochastic-differential scheduler on the unified-memory
GPU backend. -/
def reqSde : Request :=
  { modelPath := "/models/sd15", prompt := "a lake", outputPath := "/out/a.png",
    scheduler := "dpm++_sde", device := "mps" }

/-- An environment where the mps backend is available and everything else is
healthy. -/
def envSde : Env :=
  { modelExists := true, mpsAvail := true, sysRam := .ok 16,
    modelFileSizes := .ok [4], origSchedulerClass := "PNDMScheduler",
    modelType := "Stable Diffusion" }

/-- A request on the unified-memory GPU whose direct placement will raise an
out-of-memory error. -/
def reqMpsOom : Request :=
  { modelPath := "/models/sdxl", prompt := "a cat", outputPath := "/out/img.png",
    scheduler := "euler", device := "mps" }

/-- The matching environment: model smaller than the low-memory threshold,
so direct placement is attempted, and the placement call raises an
out-of-memory error. -/
def envMpsOom : Env :=
  { modelExists := true, mpsAvail := true, sysRam := .ok 16,
    modelFileSizes := .ok [4], origSchedulerClass := "EulerDiscreteScheduler",
    modelType := "Stable Diffusion",
    placeErr := some "MPS backend out of memory (MPS allocated: 8.00 GB)" }

/-- A fused key with overlapping occurrences of the qkv fragment: removing
every occurrence of .qkv.weight re-creates the fused pattern in the split
keys. -/
def badQkvKey : String :=
  ".attention.qkv.weight.attention.qkv.qkv.weight.weight"

/-- A weight table holding only that key. -/
def badTable : WeightTable Int := [(badQkvKey, [0, 1, 2])]

/-- A weight table with the standard fused-checkpoint key shapes. -/
def stdTable : WeightTable Int :=
  [("transformer_blocks.0.attention.qkv.weight", [1, 2, 3, 4, 5, 6]),
   ("transformer_blocks.0.attention.out.weight", [7]),
   ("transformer_blocks.0.attention.q_norm.weight", [8]),
   ("transformer_blocks.0.attention.k_norm.weight", [4]),
   ("time_embed.bias", [9])]

/-! ## Helper lemmas -/

/-- A substring of the tail is a substring of any extension on the left. -/
theorem hasSubAux_append (pat x y : List Char) (h : hasSubAux pat y = true) :
    hasSubAux pat (x ++ y) = true := by
  induction x with
  | nil => simpa using h
  | cons c t ih =>
      simp only [List.cons_append, hasSubAux, Bool.or_eq_true]
      exact Or.inr ih

/-- containsSub is preserved when the haystack grows on the left. -/
theorem containsSub_append_right (a b pat : String)
    (h : containsSub b pat = true) : containsSub (a ++ b) pat = true := by
  unfold containsSub at h ⊢
  rw [String.data_append]
  exact hasSubAux_append _ _ _ h

/-- The rejection message of the mps stochastic-differential check always
names euler. -/
theorem mpsSdeError_contains_euler (s : String) :
    containsSub (mpsSdeError s) "euler" = true := by
  unfold mpsSdeError
  exact containsSub_append_right _ _ _ (by decide)

/-- A resolved device can only be mps when the mps backend is available. -/
theorem resolve_device_mps_avail (req : String) (a c : Bool)
    (h : resolve_device req a c = "mps") : a = true := by
  unfold resolve_device at h
  split_ifs at h <;> simp_all

/-- The stochastic-differential schedulers of the table are exactly the two
names the mps check rejects. -/
theorem sdeSchedulerNames_eq :
    sdeSchedulerNames = ["dpm++_sde", "dpm++_sde_karras"] := by decide

/-- The threshold decision unfolded. -/
theorem lowMemDecision_iff (ram m : ℚ) :
    lowMemDecision ram m = true ↔ m > 0.75 * ram := by
  simp only [lowMemDecision, decide_eq_true_eq]
  rw [mul_comm]

/-- On mps the predicted memory mode is non-standard exactly when low-memory
mode is on. -/
theorem memory_mode_mps_ne (b : Bool) :
    memory_mode "mps" b ≠ MemMode.standard ↔ b = true := by
  cases b <;> decide

/-- On cpu the predicted memory mode is non-standard exactly when low-memory
mode is on. -/
theorem memory_mode_cpu_ne (b : Bool) :
    memory_mode "cpu" b ≠ MemMode.standard ↔ b = true := by
  cases b <;> decide

/-- One saved path per requested image. -/
theorem saved_paths_length (o : String) (n : Nat) :
    (saved_paths o n).length = n := by
  unfold saved_paths
  split_ifs with h
  · simp [h]
  · simp

/-- The keys remapEntry emits depend only on the input key. -/
theorem remapEntry_keys {α : Type} (k : String) (v : List α) :
    List.map Prod.fst (remapEntry k v) = remapKeysOf k := by
  unfold remapKeysOf remapEntry
  split_ifs <;> rfl

/-! ## The claims -/

/-- Claim C1: for every supported backend and family pair the precision the
policy chooses is exactly the fixed table of section 4.2 of the spec: on the
unified-memory GPU a flow-matching family gets bfloat16 exactly when the
runtime allocation probe succeeds and float32 otherwise; on the
unified-memory GPU every non-flow-matching family gets float32; on a
discrete GPU the reported bf16 capability decides between bfloat16 and
float16; on cpu low-memory mode decides between float16 and float32. -/
theorem C1_device_precision_policy (req modelType : String)
    (mpsAvail cudaAvail probeOk cudaBf16 lowMem : Bool) :
    (resolve_device req mpsAvail cudaAvail = "mps" →
      is_zimage_type modelType = true →
      select_dtype (resolve_device req mpsAvail cudaAvail)
          (is_zimage_type modelType) mpsAvail probeOk cudaBf16 lowMem =
        (if probeOk then Dtype.bfloat16 else Dtype.float32)) ∧
    (resolve_device req mpsAvail cudaAvail = "mps" →
      is_zimage_type modelType = false →
      select_dtype (resolve_device req mpsAvail cudaAvail)
          (is_zimage_type modelType) mpsAvail probeOk cudaBf16 lowMem =
        Dtype.float32) ∧
    (resolve_device req mpsAvail cudaAvail = "cuda" →
      select_dtype (resolve_device req mpsAvail cudaAvail)
          (is_zimage_type modelType) mpsAvail probeOk cudaBf16 lowMem =
        (if cudaBf16 then Dtype.bfloat16 else Dtype.float16)) ∧
    (resolve_device req mpsAvail cudaAvail = "cpu" →
      select_dtype (resolve_device req mpsAvail cudaAvail)
          (is_zimage_type modelType) mpsAvail probeOk cudaBf16 lowMem =
        (if lowMem then Dtype.float16 else Dtype.float32)) := by
  refine ⟨?_, ?_, ?_, ?_⟩
  · intro hd hz
    have ha := resolve_device_mps_avail req mpsAvail cudaAvail hd
    rw [hd, hz, ha]
    simp [select_dtype]
  · intro hd hz
    rw [hd, hz]
    simp [select_dtype]
  · intro hd
    rw [hd]
    simp [select_dtype]
  · intro hd
    rw [hd]
    simp [select_dtype]

/-- Nonvacuity of C1: all four rows of the precision table realised on
concrete inputs. -/
theorem C1_device_precision_policy_witness :
    select_dtype (resolve_device "auto" true false) (is_zimage_type "ZImage")
        true true false false = Dtype.bfloat16 ∧
    select_dtype (resolve_device "mps" true false) (is_zimage_type "ZImage")
        true false false false = Dtype.float32 ∧
    select_dtype (resolve_device "mps" true false)
        (is_zimage_type "Stable Diffusion") true true false false =
      Dtype.float32 ∧
    select_dtype (resolve_device "auto" false true)
        (is_zimage_type "Stable Diffusion") false false true false =
      Dtype.bfloat16 ∧
    select_dtype (resolve_device "cpu" false false)
        (is_zimage_type "Stable Diffusion") false false false true =
      Dtype.float16 := by
  refine ⟨?_, ?_, ?_, ?_, ?_⟩
  · have h := (C1_device_precision_policy "auto" "ZImage"
      true false true false false).1 (by decide) (by decide)
    simpa using h
  · have h := (C1_device_precision_policy "mps" "ZImage"
      true false false false false).1 (by decide) (by decide)
    simpa using h
  · exact (C1_device_precision_policy "mps" "Stable Diffusion"
      true false true false false).2.1 (by decide) (by decide)
  · have h := (C1_device_precision_policy "auto" "Stable Diffusion"
      false true false true false).2.2.1 (by decide)
    simpa using h
  · have h := (C1_device_precision_policy "cpu" "Stable Diffusion"
      false false false false true).2.2.2 (by decide)
    simpa using h

/-- Claim C2: when the resolved backend is the unified-memory GPU and a
stochastic-differential scheduler is requested, generate_image raises a
validation error whose message names a non-stochastic alternative (euler, a
recognised scheduler outside the stochastic-differential set), no substitute
scheduler is ever bound, and the process exit code is 1. -/
theorem C2_sde_on_mps_rejected (req : Request) (env : Env)
    (hModel : env.modelExists = true)
    (hImg : req.inputImage = none ∨ env.inputImageExists = true)
    (hLoad : env.loadOk = true)
    (hDev : resolve_device req.device env.mpsAvail env.cudaAvail = "mps")
    (hSde : req.scheduler ∈ sdeSchedulerNames) :
    run_generate req env = .error (mpsSdeError req.scheduler) ∧
    containsSub (mpsSdeError req.scheduler) "euler" = true ∧
    "euler" ∈ schedulerNames ∧ "euler" ∉ sdeSchedulerNames ∧
    exit_code (run_generate req env) = 1 := by
  have hs : req.scheduler = "dpm++_sde" ∨ req.scheduler = "dpm++_sde_karras" := by
    rw [sdeSchedulerNames_eq] at hSde
    simpa using hSde
  have hres : ∀ (fm : Bool) (mt oc : String),
      resolve_scheduler "mps" req.scheduler fm mt oc
        = .error (mpsSdeError req.scheduler) := by
    intro fm mt oc
    unfold resolve_scheduler
    rw [if_pos ⟨rfl, hs⟩]
  have hImg2 : ¬(req.inputImage.isSome = true ∧ env.inputImageExists = false) := by
    rcases hImg with h | h
    · simp [h]
    · simp [h]
  have hrun : run_generate req env = .error (mpsSdeError req.scheduler) := by
    simp only [run_generate]
    rw [hModel, hDev, hLoad, hres]
    simp [hImg2]
  exact ⟨hrun, mpsSdeError_contains_euler _, by decide, by decide,
    by rw [hrun]; rfl⟩

/-- Nonvacuity of C2: the rejection realised on a concrete request. -/
theorem C2_sde_on_mps_rejected_witness :
    run_generate reqSde envSde = .error (mpsSdeError reqSde.scheduler) ∧
    containsSub (mpsSdeError reqSde.scheduler) "euler" = true ∧
    "euler" ∈ schedulerNames ∧ "euler" ∉ sdeSchedulerNames ∧
    exit_code (run_generate reqSde envSde) = 1 :=
  C2_sde_on_mps_rejected reqSde envSde rfl (Or.inl rfl) rfl (by decide)
    (by decide)

/-- Counterexample to claim C3 as stated: on a flow-matching pipeline a
requested stochastic-differential scheduler on the mps backend is rejected
with a validation error by the earlier mps check (line 692 runs before the
flow-matching retention of line 702), so the original scheduler is not
retained and generation does not proceed. -/
theorem C3_counterexample :
    resolve_scheduler "mps" "dpm++_sde" true "ZImage"
        "FlowMatchEulerDiscreteScheduler" =
      .error (mpsSdeError "dpm++_sde") := by
  unfold resolve_scheduler
  rw [if_pos ⟨rfl, Or.inl rfl⟩]

/-- Claim C3 (amended: except when the request is first rejected by the
stochastic-differential-on-mps rule): on a flow-matching pipeline every
requested scheduler outside the flow-matching-specific kinds leaves the
pipeline's original scheduler object bound (no new scheduler is
instantiated), the override is logged, and resolution succeeds. -/
theorem C3_flow_matching_retains (device scheduler modelType origClass : String)
    (hNotSde : ¬(device = "mps" ∧
      (scheduler = "dpm++_sde" ∨ scheduler = "dpm++_sde_karras")))
    (hNotFm : scheduler ∉ flowMatchSchedulerNames) :
    ∃ logs, resolve_scheduler device scheduler true modelType origClass =
        .ok (SchedResolution.keepOriginal, logs) ∧
      "Using original scheduler to ensure compatibility." ∈ logs := by
  refine ⟨fmOverrideLogs scheduler origClass ++
    (if strLower modelType ∈ strictSchedulerModelTypes ∧
        scheduler ∉ flowMatchSchedulerNames then
      ["Preserving original scheduler for " ++ modelType ++ " model"]
    else []), ?_, ?_⟩
  · unfold resolve_scheduler
    rw [if_neg hNotSde, if_pos (Or.inl ⟨rfl, hNotFm⟩),
      if_pos ⟨rfl, hNotFm⟩]
  · simp [fmOverrideLogs]

/-- Nonvacuity of C3 (amended): a classic scheduler requested on a concrete
flow-matching pipeline is overridden and the original scheduler kept. -/
theorem C3_flow_matching_retains_witness :
    ∃ logs, resolve_scheduler "cpu" "euler" true "Stable Diffusion"
        "FlowMatchEulerDiscreteScheduler" =
        .ok (SchedResolution.keepOriginal, logs) ∧
      "Using original scheduler to ensure compatibility." ∈ logs :=
  C3_flow_matching_retains "cpu" "euler" "Stable Diffusion"
    "FlowMatchEulerDiscreteScheduler" (by decide) (by decide)

/-- Claim C4: with both memory readings successful, low-memory mode is on
exactly when the summed model size exceeds 0.75 times the system memory; the
decision is monotone in the model size for fixed system memory; and on the
backends whose memory plan it gates (mps and cpu) the plan leaves standard
mode exactly past that threshold and never returns below it. -/
theorem C4_memory_threshold (ram : ℚ) (sizes : List ℚ) :
    ((should_use_low_memory (.ok ram) (.ok sizes)).1 = true ↔
      List.sum sizes > 0.75 * ram) ∧
    (∀ m m2 : ℚ, m ≤ m2 → lowMemDecision ram m = true →
      lowMemDecision ram m2 = true) ∧
    (∀ device : String, device = "mps" ∨ device = "cpu" →
      (memory_mode device (lowMemDecision ram (List.sum sizes)) ≠
          MemMode.standard ↔
        List.sum sizes > 0.75 * ram)) := by
  refine ⟨?_, ?_, ?_⟩
  · show lowMemDecision ram (List.sum sizes) = true ↔ _
    exact lowMemDecision_iff ram (List.sum sizes)
  · intro m m2 hle hm
    rw [lowMemDecision_iff] at hm ⊢
    exact lt_of_lt_of_le hm hle
  · intro device hdev
    rcases hdev with h | h <;> subst h
    · rw [memory_mode_mps_ne]
      exact lowMemDecision_iff ram (List.sum sizes)
    · rw [memory_mode_cpu_ne]
      exact lowMemDecision_iff ram (List.sum sizes)

/-- Nonvacuity of C4: the 30 GB model against 32 GB memory scenario crosses
the threshold, an 8 GB model against 16 GB does not. -/
theorem C4_memory_threshold_witness :
    ((should_use_low_memory (.ok 32) (.ok [30])).1 = true ↔
      List.sum [(30 : ℚ)] > 0.75 * 32) ∧
    (should_use_low_memory (.ok 32) (.ok [30])).1 = true ∧
    ((should_use_low_memory (.ok 16) (.ok [8])).1 = true ↔
      List.sum [(8 : ℚ)] > 0.75 * 16) ∧
    (should_use_low_memory (.ok 16) (.ok [8])).1 = false := by
  refine ⟨(C4_memory_threshold 32 [30]).1, ?_, (C4_memory_threshold 16 [8]).1, ?_⟩
  · rw [(C4_memory_threshold 32 [30]).1]
    norm_num
  · have h := (C4_memory_threshold 16 [8]).1
    simp only [List.sum_cons, List.sum_nil, add_zero] at h
    rw [Bool.eq_false_iff]
    intro hcon
    have := h.mp hcon
    norm_num at this

/-- Counterexample to claim C5 as stated: on an out-of-memory placement
failure on mps the run does complete in sequential offload, but the device
binding used for the generator object is re-targeted to cpu (line 763), not
kept on the same logical device as the claim asserts. -/
theorem C5_counterexample :
    (run_generate reqMpsOom envMpsOom).toOption.map
        (fun o => (o.generatorDevice, o.mode, o.success)) =
      some ("cpu", MemMode.sequentialOffload, true) ∧
    resolve_device reqMpsOom.device envMpsOom.mpsAvail envMpsOom.cudaAvail =
      "mps" ∧
    ("cpu" : String) ≠ "mps" := by
  have hlow : (should_use_low_memory envMpsOom.sysRam
      envMpsOom.modelFileSizes).1 = false := by
    simp only [envMpsOom, should_use_low_memory, lowMemDecision, List.sum_cons,
      List.sum_nil, add_zero, decide_eq_false_iff_not, not_lt]
    norm_num
  refine ⟨?_, by decide, by decide⟩
  simp only [run_generate]
  rw [hlow]
  rfl

/-- Claim C5 (amended: the generator device is re-targeted to cpu, exactly
as in the meta-tensor case, rather than staying on the original device):
when direct placement raises a resource-exhaustion error, the controller
escalates to sequential offload, the run completes, one image path per
requested image is produced, and the result JSON reports success. -/
theorem C5_oom_sequential_offload (req : Request) (env : Env) (m : String)
    (hModel : env.modelExists = true)
    (hImg : req.inputImage = none ∨ env.inputImageExists = true)
    (hLoad : env.loadOk = true)
    (hDev : resolve_device req.device env.mpsAvail env.cudaAvail = "mps")
    (hLow : (should_use_low_memory env.sysRam env.modelFileSizes).1 = false)
    (hSched : ∃ r, resolve_scheduler "mps" req.scheduler
        (isFlowMatchingOf env.origSchedulerClass) env.modelType
        env.origSchedulerClass = .ok r)
    (hErr : env.placeErr = some m)
    (hOom : containsSub (strLower m) "out of memory" = true ∨
      containsSub (strLower m) "mps" = true)
    (hInf : env.inferenceOk = true)
    (hNum : 1 ≤ req.numImages) :
    ∃ out, run_generate req env = .ok out ∧
      out.mode = MemMode.sequentialOffload ∧
      out.generatorDevice = "cpu" ∧
      out.success = true ∧
      out.images.length = req.numImages ∧
      out.images ≠ [] := by
  obtain ⟨⟨schedRes, logs⟩, hres⟩ := hSched
  have hImg2 : ¬(req.inputImage.isSome = true ∧ env.inputImageExists = false) := by
    rcases hImg with h | h
    · simp [h]
    · simp [h]
  have hplace : attempt_placement "mps"
      (should_use_low_memory env.sysRam env.modelFileSizes).1 env.placeErr =
      .ok (MemMode.sequentialOffload, "cpu") := by
    rw [hErr, hLow]
    unfold attempt_placement
    rw [if_neg (by simp), if_neg (by simp)]
    show classify_place_error m = _
    unfold classify_place_error
    rw [if_pos hOom]
  have hrun : run_generate req env = .ok
      { success := true,
        images := saved_paths req.outputPath req.numImages,
        mode := MemMode.sequentialOffload,
        generatorDevice := "cpu",
        dtype := select_dtype "mps" (is_zimage_type env.modelType)
          env.mpsAvail env.bf16ProbeOk env.cudaBf16
          (should_use_low_memory env.sysRam env.modelFileSizes).1,
        schedRes := schedRes,
        loraAction := set_adapters_action
          (match req.loraPaths with
           | none => []
           | some ps => load_loras ps req.loraWeights env.loraEnv),
        useLowMemory :=
          (should_use_low_memory env.sysRam env.modelFileSizes).1 } := by
    simp only [run_generate]
    rw [hModel, hDev, hLoad, hres, hplace, hInf]
    simp [hImg2]
  refine ⟨_, hrun, rfl, rfl, rfl, saved_paths_length _ _, ?_⟩
  rw [← List.length_pos, saved_paths_length]
  omega

/-- Nonvacuity of C5 (amended): the concrete out-of-memory run completes in
sequential offload with the generator on cpu. -/
theorem C5_oom_sequential_offload_witness :
    ∃ out, run_generate reqMpsOom envMpsOom = .ok out ∧
      out.mode = MemMode.sequentialOffload ∧
      out.generatorDevice = "cpu" ∧
      out.success = true ∧
      out.images.length = reqMpsOom.numImages ∧
      out.images ≠ [] := by
  apply C5_oom_sequential_offload reqMpsOom envMpsOom
    "MPS backend out of memory (MPS allocated: 8.00 GB)"
  · rfl
  · exact Or.inl rfl
  · rfl
  · decide
  · simp only [envMpsOom, should_use_low_memory, lowMemDecision, List.sum_cons,
      List.sum_nil, add_zero, decide_eq_false_iff_not, not_lt]
    norm_num
  · exact ⟨(SchedResolution.setNew "euler", ["Setting scheduler: " ++ "euler"]),
      by rfl⟩
  · rfl
  · decide
  · rfl
  · decide

/-- Claim C6: a placement error not classified as resource exhaustion (no
out-of-memory and no mps fragment in its lowered message) but indicating a
meta or uninitialized tensor (a meta-tensor or to_empty fragment) escalates
to whole-model offload with the generator device re-targeted to cpu; an
error matching neither classification is re-raised unchanged. -/
theorem C6_meta_offload_or_reraise (m : String) :
    (¬(containsSub (strLower m) "out of memory" = true ∨
        containsSub (strLower m) "mps" = true) →
      (containsSub (strLower m) "meta tensor" = true ∨
        containsSub (strLower m) "to_empty" = true) →
      classify_place_error m = .ok (MemMode.modelOffload, "cpu")) ∧
    (¬(containsSub (strLower m) "out of memory" = true ∨
        containsSub (strLower m) "mps" = true) →
      ¬(containsSub (strLower m) "meta tensor" = true ∨
        containsSub (strLower m) "to_empty" = true) →
      classify_place_error m = .error m) := by
  constructor
  · intro h1 h2
    unfold classify_place_error
    rw [if_neg h1, if_pos h2]
  · intro h1 h2
    unfold classify_place_error
    rw [if_neg h1, if_neg h2]

/-- Nonvacuity of C6: a realistic meta-tensor message goes to whole-model
offload on cpu, an unrelated message is re-raised unchanged. -/
theorem C6_meta_offload_or_reraise_witness :
    classify_place_error
        "Cannot copy out of meta tensor; please use torch.nn.Module.to_empty()"
      = .ok (MemMode.modelOffload, "cpu") ∧
    classify_place_error "unexpected dtype for weight tensor"
      = .error "unexpected dtype for weight tensor" :=
  ⟨(C6_meta_offload_or_reraise
      "Cannot copy out of meta tensor; please use torch.nn.Module.to_empty()").1
      (by decide) (by decide),
   (C6_meta_offload_or_reraise "unexpected dtype for weight tensor").2
      (by decide) (by decide)⟩

/-- Claim C7: the weight adapter splits every fused query-key-value key
evenly into three equal-sized tensors along the leading dimension and
re-keys them to the separate query, key and value names; it relabels the
attention-output, query-norm and key-norm keys to the expected names; it
passes every other key through with its tensor unchanged; and a table with
no fused key makes the adapter return the original path and write no cache
file. -/
theorem C7_weight_remap (k : String) (v : List Int) (tbl : WeightTable Int)
    (p : String) (b : Bool) :
    (containsSub k ".attention.qkv.weight" = true → 3 ∣ v.length →
      ∃ q kk vv,
        remapEntry k v =
          [(strReplace k ".qkv.weight" "" ++ ".to_q.weight", q),
           (strReplace k ".qkv.weight" "" ++ ".to_k.weight", kk),
           (strReplace k ".qkv.weight" "" ++ ".to_v.weight", vv)] ∧
        q.length = v.length / 3 ∧ kk.length = v.length / 3 ∧
        vv.length = v.length / 3 ∧ (q ++ kk) ++ vv = v) ∧
    (containsSub k ".attention.qkv.weight" = false →
      containsSub k ".attention.out.weight" = true →
      remapEntry k v = [(strReplace k ".out.weight" ".to_out.0.weight", v)]) ∧
    (containsSub k ".attention.qkv.weight" = false →
      containsSub k ".attention.out.weight" = false →
      containsSub k ".attention.q_norm.weight" = true →
      remapEntry k v = [(strReplace k ".q_norm.weight" ".norm_q.weight", v)]) ∧
    (containsSub k ".attention.qkv.weight" = false →
      containsSub k ".attention.out.weight" = false →
      containsSub k ".attention.q_norm.weight" = false →
      containsSub k ".attention.k_norm.weight" = true →
      remapEntry k v = [(strReplace k ".k_norm.weight" ".norm_k.weight", v)]) ∧
    (containsSub k ".attention.qkv.weight" = false →
      containsSub k ".attention.out.weight" = false →
      containsSub k ".attention.q_norm.weight" = false →
      containsSub k ".attention.k_norm.weight" = false →
      remapEntry k v = [(k, v)]) ∧
    (needsRemapB tbl = false →
      remap_fp8_weights p tbl b = { usePath := p, cacheWritten := none }) := by
  refine ⟨?_, ?_, ?_, ?_, ?_, ?_⟩
  · intro hq hdvd
    obtain ⟨c, hc⟩ := hdvd
    have hdiv : v.length / 3 = c := by omega
    refine ⟨v.take (v.length / 3), (v.drop (v.length / 3)).take (v.length / 3),
      (v.drop (v.length / 3 + v.length / 3)).take (v.length / 3),
      ?_, ?_, ?_, ?_, ?_⟩
    · unfold remapEntry
      rw [if_pos hq]
    · simp only [List.length_take]
      omega
    · simp only [List.length_take, List.length_drop]
      omega
    · simp only [List.length_take, List.length_drop]
      omega
    · rw [hdiv]
      have e3 : (v.drop (c + c)).take c = v.drop (c + c) :=
        List.take_of_length_le (by simp only [List.length_drop]; omega)
      have e4 : v.drop (c + c) = (v.drop c).drop c := by
        rw [List.drop_drop]
      rw [e3, e4, List.append_assoc, List.take_append_drop,
        List.take_append_drop]
  · intro h1 h2
    unfold remapEntry
    rw [if_neg (by simp [h1]), if_pos h2]
  · intro h1 h2 h3
    unfold remapEntry
    rw [if_neg (by simp [h1]), if_neg (by simp [h2]), if_pos h3]
  · intro h1 h2 h3 h4
    unfold remapEntry
    rw [if_neg (by simp [h1]), if_neg (by simp [h2]), if_neg (by simp [h3]),
      if_pos h4]
  · intro h1 h2 h3 h4
    unfold remapEntry
    rw [if_neg (by simp [h1]), if_neg (by simp [h2]), if_neg (by simp [h3]),
      if_neg (by simp [h4])]
  · intro h
    unfold remap_fp8_weights
    rw [if_neg (by simp [h])]

/-- Nonvacuity of C7: the split, one rename, a pass-through and the no-op
return realised on concrete keys. -/
theorem C7_weight_remap_witness :
    (∃ q kk vv,
      remapEntry "transformer_blocks.0.attention.qkv.weight"
          ([10, 20, 30, 40, 50, 60] : List Int) =
        [(strReplace "transformer_blocks.0.attention.qkv.weight"
            ".qkv.weight" "" ++ ".to_q.weight", q),
         (strReplace "transformer_blocks.0.attention.qkv.weight"
            ".qkv.weight" "" ++ ".to_k.weight", kk),
         (strReplace "transformer_blocks.0.attention.qkv.weight"
            ".qkv.weight" "" ++ ".to_v.weight", vv)] ∧
      q.length = ([10, 20, 30, 40, 50, 60] : List Int).length / 3 ∧
      kk.length = ([10, 20, 30, 40, 50, 60] : List Int).length / 3 ∧
      vv.length = ([10, 20, 30, 40, 50, 60] : List Int).length / 3 ∧
      (q ++ kk) ++ vv = [10, 20, 30, 40, 50, 60]) ∧
    remapEntry "transformer_blocks.0.attention.out.weight" ([7] : List Int) =
      [(strReplace "transformer_blocks.0.attention.out.weight"
          ".out.weight" ".to_out.0.weight", [7])] ∧
    remapEntry "time_embed.bias" ([9] : List Int) = [("time_embed.bias", [9])] ∧
    remap_fp8_weights "t/diffusion_pytorch_model.safetensors"
        ([("time_embed.bias", [9])] : WeightTable Int) false =
      { usePath := "t/diffusion_pytorch_model.safetensors",
        cacheWritten := none } :=
  ⟨(C7_weight_remap "transformer_blocks.0.attention.qkv.weight"
      [10, 20, 30, 40, 50, 60] [] "" false).1 (by decide) (by decide),
   (C7_weight_remap "transformer_blocks.0.attention.out.weight" [7] [] ""
      false).2.1 (by decide) (by decide),
   (C7_weight_remap "time_embed.bias" [9] [] "" false).2.2.2.2.1
      (by decide) (by decide) (by decide) (by decide),
   (C7_weight_remap "" [] [("time_embed.bias", [9])]
      "t/diffusion_pytorch_model.safetensors" false).2.2.2.2.2 (by decide)⟩

/-- Counterexample to claim C8 as stated: for a fused key with overlapping
occurrences of the .qkv.weight fragment, removing every occurrence (Python
str.replace) re-creates the fused pattern inside the split keys, so after a
first run that did remap, the second run over the remapped table does not
detect that no remap is needed, and the symlink step runs again. -/
theorem C8_counterexample :
    needsRemapB badTable = true ∧
    needsRemapB (remapTable badTable) = true ∧
    (remap_fp8_weights "t/diffusion_pytorch_model.safetensors"
        (remapTable badTable) true).usePath ≠
      "t/diffusion_pytorch_model.safetensors" ∧
    (apply_remap_links "t/diffusion_pytorch_model.safetensors"
        (remap_fp8_weights "t/diffusion_pytorch_model.safetensors"
          (remapTable badTable) true).usePath true).createdSymlink = true := by
  refine ⟨by decide, by decide, by decide, by decide⟩

/-- Claim C8 (amended: for weight tables whose remapped keys hold no fused
query-key-value pattern of their own, which is the case for standard
checkpoint key layouts where .qkv.weight occurs once as a suffix): a second
run of the weight adapter on the remapped table detects that no remap is
needed, returns the original path, writes nothing over the existing cache
file, and triggers neither the backup rename nor the symlink creation. -/
theorem C8_idempotent (tbl : WeightTable Int) (p : String)
    (h : ∀ e ∈ tbl, ∀ k2 ∈ remapKeysOf e.1,
      containsSub k2 ".attention.qkv.weight" = false) :
    needsRemapB (remapTable tbl) = false ∧
    remap_fp8_weights p (remapTable tbl) true =
      { usePath := p, cacheWritten := none } ∧
    apply_remap_links p
        (remap_fp8_weights p (remapTable tbl) true).usePath true =
      { renamedBackup := false, createdSymlink := false } := by
  have hno : needsRemapB (remapTable tbl) = false := by
    unfold needsRemapB
    rw [List.any_eq_false]
    intro kv hkv
    unfold remapTable at hkv
    rw [List.mem_flatMap] at hkv
    obtain ⟨e, he, hke⟩ := hkv
    have hmem : kv.1 ∈ remapKeysOf e.1 := by
      rw [← remapEntry_keys e.1 e.2]
      exact List.mem_map_of_mem Prod.fst hke
    simp [h e he kv.1 hmem]
  have hu : remap_fp8_weights p (remapTable tbl) true =
      { usePath := p, cacheWritten := none } := by
    unfold remap_fp8_weights
    rw [if_neg (by simp [hno])]
  refine ⟨hno, hu, ?_⟩
  rw [hu]
  unfold apply_remap_links
  rw [if_neg (by simp)]

/-- Nonvacuity of C8 (amended): the standard fused-checkpoint table is
remapped once and the second run is a detected no-op with no rename and no
symlink. -/
theorem C8_idempotent_witness :
    needsRemapB (remapTable stdTable) = false ∧
    remap_fp8_weights "t/diffusion_pytorch_model.safetensors"
        (remapTable stdTable) true =
      { usePath := "t/diffusion_pytorch_model.safetensors",
        cacheWritten := none } ∧
    apply_remap_links "t/diffusion_pytorch_model.safetensors"
        (remap_fp8_weights "t/diffusion_pytorch_model.safetensors"
          (remapTable stdTable) true).usePath true =
      { renamedBackup := false, createdSymlink := false } :=
  C8_idempotent stdTable "t/diffusion_pytorch_model.safetensors" (by decide)

/-- Claim C9: with n adapter paths and m < n supplied weights, the resolved
weight list has length n and its final n - m entries are 1.0; when more than
one adapter loads, all loaded adapters are set in one simultaneous
composed-weights call; exactly one loaded adapter is set only when its
weight differs from 1.0; zero loaded adapters cause no weight mutation. -/
theorem C9_lora_composition (paths : List String) (ws : List ℚ)
    (weights : Option (List ℚ)) (lenv : LoraEnv) :
    (ws.length < paths.length →
      (pad_lora_weights paths.length (some ws)).length = paths.length ∧
      (pad_lora_weights paths.length (some ws)).drop ws.length =
        List.replicate (paths.length - ws.length) 1) ∧
    (1 < (load_loras paths weights lenv).length →
      set_adapters_action (load_loras paths weights lenv) =
        some (List.map Prod.fst (load_loras paths weights lenv),
          List.map Prod.snd (load_loras paths weights lenv))) ∧
    (∀ nm : String, ∀ w : ℚ, load_loras paths weights lenv = [(nm, w)] →
      set_adapters_action (load_loras paths weights lenv) =
        (if w ≠ 1 then some ([nm], [w]) else none)) ∧
    (load_loras paths weights lenv = [] →
      set_adapters_action (load_loras paths weights lenv) = none) := by
  refine ⟨?_, ?_, ?_, ?_⟩
  · intro hlt
    have hpad : pad_lora_weights paths.length (some ws) =
        ws ++ List.replicate (paths.length - ws.length) 1 := by
      show (if ws.length < paths.length then
        ws ++ List.replicate (paths.length - ws.length) 1 else ws) = _
      rw [if_pos hlt]
    rw [hpad]
    constructor
    · simp only [List.length_append, List.length_replicate]
      omega
    · rw [List.drop_left]
  · intro hgt
    unfold set_adapters_action
    rw [if_pos hgt]
  · intro nm w heq
    rw [heq]
    unfold set_adapters_action
    simp
  · intro heq
    rw [heq]
    rfl

/-- Nonvacuity of C9: the scenario of the spec, two adapters with weights
padded from 0.8 to both set in one simultaneous call. -/
theorem C9_lora_composition_witness :
    ((pad_lora_weights 2 (some [0.8])).length = 2 ∧
      (pad_lora_weights 2 (some [0.8])).drop 1 = List.replicate 1 1) ∧
    set_adapters_action
        (load_loras ["a.safetensors", "b.safetensors"] (some [0.8])
          { missing := [], failing := [] }) =
      some (List.map Prod.fst
          (load_loras ["a.safetensors", "b.safetensors"] (some [0.8])
            { missing := [], failing := [] }),
        List.map Prod.snd
          (load_loras ["a.safetensors", "b.safetensors"] (some [0.8])
            { missing := [], failing := [] })) ∧
    set_adapters_action
        (load_loras ["missing.safetensors"] none
          { missing := ["missing.safetensors"], failing := [] }) = none := by
  refine ⟨?_, ?_, ?_⟩
  · exact (C9_lora_composition ["a.safetensors", "b.safetensors"] [0.8] none
      { missing := [], failing := [] }).1 (by decide)
  · exact (C9_lora_composition ["a.safetensors", "b.safetensors"] [0.8]
      (some [0.8]) { missing := [], failing := [] }).2.1 (by decide)
  · exact (C9_lora_composition ["missing.safetensors"] [] none
      { missing := ["missing.safetensors"], failing := [] }).2.2.2 (by rfl)

/-- Claim C10: the memory estimator is total: when either the system-memory
reading or the model-size walk raises, the exception is caught, the warning
lines are printed and the conservative answer false is returned; no
exception propagates to the caller (the estimator is a total function into
Bool in this embedding). -/
theorem C10_estimator_total :
    (∀ (e : String) (sizes : Except String (List ℚ)),
      should_use_low_memory (.error e) sizes =
        (false, ["Warning: Failed to detect memory requirements: " ++ e,
          "Defaulting to low_cpu_mem_usage=False for compatibility"])) ∧
    (∀ (ram : ℚ) (e : String),
      should_use_low_memory (.ok ram) (.error e) =
        (false, ["Warning: Failed to detect memory requirements: " ++ e,
          "Defaulting to low_cpu_mem_usage=False for compatibility"])) ∧
    (∀ (sysRam : Except String ℚ) (sizes : Except String (List ℚ)),
      (sysRam.isOk = false ∨ sizes.isOk = false) →
        (should_use_low_memory sysRam sizes).1 = false) := by
  refine ⟨fun e sizes => rfl, fun ram e => rfl, ?_⟩
  intro sysRam sizes h
  match sysRam, sizes with
  | .error e, _ => rfl
  | .ok ram, .error e => rfl
  | .ok ram, .ok szs => simp [Except.isOk, Except.toBool] at h

end SamImageGen
